import Mathlib

/-!
Verification of the healthy-api user controller and user service
(src/app/controller/user_controller.py and src/app/service/user_service.py)
against their natural-language specification.

The Python code is shallowly embedded: the database session becomes an
explicit `DBState` record threaded through the service functions, a SQL row
set becomes a `List`, HTTP responses become an `HttpResult`, and Python
exceptions surface as the `pyError` constructor.  Functions whose
implementation lives in repository files outside the two sources above
(the `User` model class, `struct_service`, and the favorite mutation
services) are modelled from the spec and say so in their doc comments.
-/

/-- A row of the users table, mirroring the fields the controller touches
(user_controller.py lines 74-81): id, username, password_hash, created_on
and the owned-structures relationship value. -/
structure User where
  id : Nat
  username : String
  password_hash : String
  created_on : Nat
  structures : List Nat
  deriving DecidableEq, Repr

/-- A row of the structures table: primary key, owner foreign key
(`Structure.user_id`, user_service.py line 44), the concrete polymorphic
subtype discriminator resolved by `with_polymorphic` (line 49), and the
geometry payload. -/
structure Structure where
  id : Nat
  user_id : Option Nat
  subtype : String
  geometry : String
  deriving DecidableEq, Repr

/-- The persistent store that `DB.session` reads and writes: users,
structures, the favorites many-to-many association as
(user id, structure id) rows, the next generated primary key, and the
current clock used for `created_on`. -/
structure DBState where
  users : List User
  structures : List Structure
  favorites : List (Nat × Nat)
  nextId : Nat
  now : Nat
  deriving DecidableEq, Repr

/-- Outcome of a handler: a marshalled body with a status code, an
`abort(status)` short-circuit, or an uncaught Python exception (which the
hosting framework turns into a 500). -/
inductive HttpResult (α : Type) where
  | ok : α → Nat → HttpResult α
  | httpAbort : Nat → HttpResult α
  | pyError : String → HttpResult α
  deriving DecidableEq, Repr

/-- The status code the framework sends for each outcome. -/
def HttpResult.status : HttpResult α → Nat
  | .ok _ c => c
  | .httpAbort c => c
  | .pyError _ => 500

/-- The response shape produced by `marshal_with(USER_MODEL)`
(user_controller.py lines 14-18): exactly id, username and created_on. -/
structure UserResp where
  id : Nat
  username : String
  created_on : Nat
  deriving DecidableEq, Repr

/-- Marshalling a user row through USER_MODEL keeps only the three declared
fields; the password hash has no field in the model and is dropped. -/
def marshal_user (u : User) : UserResp :=
  ⟨u.id, u.username, u.created_on⟩

/-- Payload of POST /users (USER_PASSWORD_MODEL, lines 20-23): username and
password, both required. -/
structure SignupPayload where
  username : String
  password : String
  deriving DecidableEq, Repr

/-- Payload of PUT /users/id: username plus an optional password, since the
handler tests `"password" in API.payload.keys()` (line 83). -/
structure UserPayload where
  username : String
  password : Option String
  deriving DecidableEq, Repr

/-- Payload of POST /users/id/favorites (FAVORITE_MODEL, lines 25-27). -/
structure FavPayload where
  structure_id : Nat
  deriving DecidableEq, Repr

/-- A GeoJSON feature for one structure, carrying its resolved concrete
subtype. -/
structure Feature where
  structure_id : Nat
  subtype : String
  geometry : String
  deriving DecidableEq, Repr

/-- A GeoJSON feature collection (FEATURE_COLLECTION_MODEL response). -/
structure FeatureCollection where
  features : List Feature
  deriving DecidableEq, Repr

/-- Modelled from the spec: the `User` model class (app/model/user.py, not
under src/) stores a salted hash of the password, never the plaintext
("password (stored as a salted hash, never the plaintext)", spec section 3).
The constructor salt prefix makes the stored value differ from the input. -/
def hashPassword (p : String) : String :=
  "pbkdf2:sha256$" ++ p

/-- Modelled from the spec: `struct_service.get_structure` (imported at
user_controller.py line 10, defined outside src/) is a point lookup of a
structure by its primary key. -/
def get_structure (db : DBState) (sid : Nat) : Option Structure :=
  db.structures.find? (fun s => s.id == sid)

/-- Modelled from the spec: `struct_service.structures_to_geojson` (outside
src/) serializes each structure, resolved to its concrete subtype, as a
GeoJSON feature. -/
def structure_to_feature (s : Structure) : Feature :=
  ⟨s.id, s.subtype, s.geometry⟩

/-- Modelled from the spec: `structures_to_geojson` over a row set yields a
feature collection with one feature per structure. -/
def structures_to_geojson (l : List Structure) : FeatureCollection :=
  ⟨l.map structure_to_feature⟩

/-- user_service.get_all_user (user_service.py lines 12-14):
`DB.session.query(User).all()`. -/
def get_all_user (db : DBState) : List User :=
  db.users

/-- user_service.add_user (lines 17-20): `DB.session.add(user)` then commit;
the insert consumes the generated primary key. -/
def add_user (db : DBState) (u : User) : DBState :=
  { db with users := db.users ++ [u], nextId := db.nextId + 1 }

/-- user_service.get_user (lines 23-25): `User.query.get(user_id)`, a
primary-key lookup returning the row or None. -/
def get_user (db : DBState) (uid : Nat) : Option User :=
  db.users.find? (fun u => u.id == uid)

/-- user_service.update_user (lines 28-31): `DB.session.merge(user)` then
commit — merge by primary key: overwrite the row with the same id if one
exists, otherwise insert. -/
def update_user (db : DBState) (u : User) : DBState :=
  if db.users.any (fun v => v.id == u.id) then
    { db with users := db.users.map (fun v => if v.id == u.id then u else v) }
  else
    { db with users := db.users ++ [u] }

/-- user_service.delete_user (lines 34-39): look the user up; if present,
`DB.session.delete(user)` (DELETE WHERE id = user.id) and commit, cascading
removal of the user's favorite association rows per the relation's
referential rules (spec section 4.1; the relation configuration lives in
app/model/user.py, outside src/); if absent, do nothing. -/
def delete_user (db : DBState) (uid : Nat) : DBState :=
  match get_user db uid with
  | none => db
  | some u =>
    { db with
      users := db.users.filter (fun v => !(v.id == u.id)),
      favorites := db.favorites.filter (fun p => !(p.1 == u.id)) }

/-- user_service.get_all_structure_by_user (lines 42-44): polymorphic query
of the structures whose `user_id` foreign key is the given user. -/
def get_all_structure_by_user (db : DBState) (uid : Nat) : List Structure :=
  db.structures.filter (fun s => s.user_id == some uid)

/-- user_service.get_favourites_by_user (lines 47-50): polymorphic query of
the structures for which `Structure.favourites_of.any(id=user_id)` holds,
i.e. there is a favorites association row joining the structure to a users
row with the given id. -/
def get_favourites_by_user (db : DBState) (uid : Nat) : List Structure :=
  db.structures.filter (fun s =>
    db.favorites.any (fun p => p.1 == uid && p.2 == s.id) &&
      db.users.any (fun u => u.id == uid))

/-- Modelled from the spec: `user_service.add_favorite_to_user`, called at
user_controller.py line 135 but defined outside src/ — "add_favorite
(user_id, structure_id)" inserts the association row; duplicate handling is
left to the relation (spec section 4.1), so the insert is a plain append. -/
def add_favorite_to_user (db : DBState) (uid sid : Nat) : DBState :=
  { db with favorites := db.favorites ++ [(uid, sid)] }

/-- Modelled from the spec: `user_service.delete_favorite`, called at
user_controller.py line 151 but defined outside src/ — "remove_favorite
(user_id, favorite_id): removes the association; no-op if absent"
(spec section 4.1). -/
def delete_favorite (db : DBState) (uid fid : Nat) : DBState :=
  { db with favorites := db.favorites.filter (fun p => !(p.1 == uid && p.2 == fid)) }

/-- The functions defined at top level of src/app/service/user_service.py;
Python resolves `user_service.name` by attribute lookup in this module and
raises AttributeError for any other name. -/
def userServiceAttrs : List String :=
  ["get_all_user", "add_user", "get_user", "update_user", "delete_user",
   "get_all_structure_by_user", "get_favourites_by_user"]

/-- Attribute lookup of a favorites query function on the user_service
module: only the name actually defined there (line 47) resolves. -/
def userServiceFavoritesQuery : String → Option (DBState → Nat → List Structure)
  | "get_favourites_by_user" => some get_favourites_by_user
  | _ => none

/-- UserListController.get (user_controller.py lines 36-40): public list of
all users, marshalled through USER_MODEL. -/
def UserListController_get (db : DBState) : HttpResult (List UserResp) :=
  .ok ((get_all_user db).map marshal_user) 200

/-- UserListController.post (lines 42-51): build a User from the payload
(the model class hashes the password, generates the id and timestamps
created_on — modelled from spec section 3), add_user it, return it
marshalled with status 201. -/
def UserListController_post (pl : SignupPayload) (db : DBState) :
    HttpResult UserResp × DBState :=
  let user : User :=
    { id := db.nextId, username := pl.username,
      password_hash := hashPassword pl.password,
      created_on := db.now, structures := [] }
  (.ok (marshal_user user) 201, add_user db user)

/-- UserController.get (lines 62-66): no authentication; returns
`user_service.get_user(user_id)` marshalled through USER_MODEL.  flask-restplus
marshals a None result to a body of null fields with status 200; the
`@API.response(404)` decorator on the class only documents a 404. -/
def UserController_get (db : DBState) (uid : Nat) : HttpResult (Option UserResp) :=
  .ok ((get_user db uid).map marshal_user) 200

/-- UserController.put (lines 68-88): jwt_required resolves a caller
identity which the body never reads; looks the user up, dereferences
`user.password_hash` (an AttributeError on None when the user id does not
exist), builds the updated row keeping the old hash, created_on and
structures, re-hashes a new password only when the payload carries one,
merges and returns the updated row. -/
def UserController_put (identity uid : Nat) (pl : UserPayload) (db : DBState) :
    HttpResult UserResp × DBState :=
  match get_user db uid with
  | none =>
    (.pyError "AttributeError: NoneType object has no attribute password_hash", db)
  | some user =>
    let updated : User :=
      { id := uid, username := pl.username,
        password_hash :=
          match pl.password with
          | some p => hashPassword p
          | none => user.password_hash,
        created_on := user.created_on,
        structures := user.structures }
    (.ok (marshal_user updated) 200, update_user db updated)

/-- UserController.delete (lines 90-100): jwt_required; abort(401) when the
target user id differs from the caller identity, otherwise delete_user and
an empty 204. -/
def UserController_delete (identity uid : Nat) (db : DBState) :
    HttpResult String × DBState :=
  if uid != identity then
    (.httpAbort 401, db)
  else
    (.ok "" 204, delete_user db uid)

/-- StructureUserController.get (lines 103-113): public GeoJSON listing of
the structures owned by the user. -/
def StructureUserController_get (db : DBState) (uid : Nat) :
    HttpResult FeatureCollection :=
  .ok (structures_to_geojson (get_all_structure_by_user db uid)) 200

/-- FavoritesUserController.get (lines 122-126): no authentication; the body
calls `user_service.get_favorites_by_user(user_id)`, resolved by attribute
lookup on the user_service module, and serializes the rows to GeoJSON. -/
def FavoritesUserController_get (db : DBState) (uid : Nat) :
    HttpResult FeatureCollection :=
  match userServiceFavoritesQuery "get_favorites_by_user" with
  | some q => .ok (structures_to_geojson (q db uid)) 200
  | none =>
    .pyError "AttributeError: module app.service.user_service has no attribute get_favorites_by_user"

/-- FavoritesUserController.post (lines 128-136): jwt_required resolves a
caller identity that the body never compares to user_id; adds the favorite
association and returns the affected structure re-serialized (the single
structure is marshalled through FEATURE_MODEL with skip_none). -/
def FavoritesUserController_post (identity uid : Nat) (pl : FavPayload)
    (db : DBState) : HttpResult (Option Feature) × DBState :=
  let db1 := add_favorite_to_user db uid pl.structure_id
  (.ok ((get_structure db1 pl.structure_id).map structure_to_feature) 200, db1)

/-- FavoriteUserDeleteController.delete (lines 139-155): jwt_required; when
the target user id equals the caller identity, delete_favorite and an empty
204; otherwise abort(401). -/
def FavoriteUserDeleteController_delete (identity uid fid : Nat)
    (db : DBState) : HttpResult String × DBState :=
  if uid == identity then
    (.ok "" 204, delete_favorite db uid fid)
  else
    (.httpAbort 401, db)

/-- A sample owned structure used to instantiate theorems with hypotheses. -/
def sampleStructure : Structure :=
  { id := 42, user_id := some 1, subtype := "hospital", geometry := "POINT 0 0" }

/-- A sample stored user (id 1) owning `sampleStructure`. -/
def sampleUser : User :=
  { id := 1, username := "alice", password_hash := hashPassword "p",
    created_on := 0, structures := [42] }

/-- A second sample stored user (id 2). -/
def sampleUser2 : User :=
  { id := 2, username := "bob", password_hash := hashPassword "q",
    created_on := 0, structures := [] }

/-- A sample store holding both users, the structure and one favorite row. -/
def sampleDb : DBState :=
  { users := [sampleUser, sampleUser2], structures := [sampleStructure],
    favorites := [(1, 42)], nextId := 3, now := 5 }

/-- The empty store. -/
def emptyDb : DBState :=
  { users := [], structures := [], favorites := [], nextId := 1, now := 0 }

/-- Rows failing a predicate are never found by a search for it. -/
theorem find?_filter_not {α : Type} (l : List α) (q : α → Bool) :
    (l.filter (fun a => !(q a))).find? q = none := by
  rw [List.find?_eq_none]
  intro x hx
  have hmem := List.mem_filter.mp hx
  simpa using hmem.2

/-- Rows failing a predicate never satisfy an existential search for it. -/
theorem any_filter_not {α : Type} (l : List α) (q : α → Bool) :
    (l.filter (fun a => !(q a))).any q = false := by
  rw [Bool.eq_false_iff]
  intro hx
  obtain ⟨x, hmem, hq⟩ := List.any_eq_true.mp hx
  have h2 := (List.mem_filter.mp hmem).2
  simp [hq] at h2

/-- After overwriting every row of the target id with `w`, a search for the
target id finds `w`, provided some row had the id. -/
theorem find?_map_replace (l : List User) (uid : Nat) (w : User)
    (hw : w.id = uid) (h : l.any (fun v => v.id == uid) = true) :
    (l.map (fun v => if v.id == uid then w else v)).find?
      (fun v => v.id == uid) = some w := by
  induction l with
  | nil => simp at h
  | cons a t ih =>
    by_cases ha : (a.id == uid) = true
    · simp only [List.map_cons, ha, if_true]
      exact List.find?_cons_of_pos _ (by simp [hw])
    · have ha' : (a.id == uid) = false := by simpa using ha
      simp only [List.map_cons, ha', if_false]
      rw [List.find?_cons_of_neg _ (by simp [ha'])]
      apply ih
      simpa [List.any_cons, ha'] using h

/-- The merge performed by update_user only rewrites the users table. -/
theorem update_user_frame (db : DBState) (u : User) :
    (update_user db u).structures = db.structures ∧
      (update_user db u).favorites = db.favorites ∧
      (update_user db u).nextId = db.nextId ∧
      (update_user db u).now = db.now := by
  unfold update_user
  split <;> exact ⟨rfl, rfl, rfl, rfl⟩

/-- C1: for every authenticated caller A and target user id B with A ≠ B,
both the DELETE-user handler and the DELETE-favorite handler abort with 401
and leave the store untouched. -/
theorem c1_self_only_deletions (A B fid : Nat) (db : DBState) (h : A ≠ B) :
    UserController_delete A B db = (.httpAbort 401, db) ∧
      FavoriteUserDeleteController_delete A B fid db = (.httpAbort 401, db) := by
  have hBA : (B == A) = false := by
    simp only [beq_eq_false_iff_ne]
    exact fun e => h e.symm
  constructor
  · simp [UserController_delete, bne, hBA]
  · simp [FavoriteUserDeleteController_delete, hBA]

/-- Closed instance of c1_self_only_deletions at caller 1, target 2. -/
theorem c1_self_only_deletions_witness :
    UserController_delete 1 2 sampleDb = (.httpAbort 401, sampleDb) ∧
      FavoriteUserDeleteController_delete 1 2 42 sampleDb =
        (.httpAbort 401, sampleDb) :=
  c1_self_only_deletions 1 2 42 sampleDb (by decide)

/-- C2: signup with password p stores only hashPassword p (which differs
from p), the listing of the new state marshals every stored user through
USER_MODEL, and that marshalling emits exactly id, username and created_on
(the password hash has no field in the response shape). -/
theorem c2_password_never_exposed (un p : String) (db : DBState) :
    ((UserListController_post ⟨un, p⟩ db).2.users =
        db.users ++ [{ id := db.nextId, username := un,
                       password_hash := hashPassword p, created_on := db.now,
                       structures := [] }]) ∧
      hashPassword p ≠ p ∧
      (UserListController_get (UserListController_post ⟨un, p⟩ db).2 =
        .ok ((UserListController_post ⟨un, p⟩ db).2.users.map marshal_user) 200) ∧
      (∀ u : User, marshal_user u = ⟨u.id, u.username, u.created_on⟩) := by
  refine ⟨rfl, ?_, rfl, fun u => rfl⟩
  intro hcontra
  have hlen := congrArg String.length hcontra
  rw [hashPassword, String.length_append] at hlen
  have h14 : ("pbkdf2:sha256$" : String).length = 14 := rfl
  rw [h14] at hlen
  omega

/-- C3: favorites round-trip at the store level — for a stored user and a
stored structure, after add_favorite the favorites listing includes the
structure, and after a subsequent remove_favorite it excludes it. -/
theorem c3_favorites_round_trip (db : DBState) (uid : Nat) (s : Structure)
    (hu : ∃ u ∈ db.users, u.id = uid) (hs : s ∈ db.structures) :
    s ∈ get_favourites_by_user (add_favorite_to_user db uid s.id) uid ∧
      s ∉ get_favourites_by_user
        (delete_favorite (add_favorite_to_user db uid s.id) uid s.id) uid := by
  obtain ⟨u, hmem, hid⟩ := hu
  have husers : db.users.any (fun v => v.id == uid) = true :=
    List.any_eq_true.mpr ⟨u, hmem, by simp [hid]⟩
  constructor
  · rw [get_favourites_by_user]
    apply List.mem_filter.mpr
    refine ⟨by simpa [add_favorite_to_user] using hs, ?_⟩
    simp [add_favorite_to_user, List.any_append, husers]
  · intro hin
    rw [get_favourites_by_user] at hin
    have hpred := (List.mem_filter.mp hin).2
    rw [Bool.and_eq_true] at hpred
    have hany := hpred.1
    rw [show (delete_favorite (add_favorite_to_user db uid s.id) uid s.id).favorites =
          (add_favorite_to_user db uid s.id).favorites.filter
            (fun p => !(p.1 == uid && p.2 == s.id)) from rfl] at hany
    rw [any_filter_not] at hany
    exact Bool.false_ne_true hany

/-- Closed instance of c3_favorites_round_trip on the sample store. -/
theorem c3_favorites_round_trip_witness :
    sampleStructure ∈
        get_favourites_by_user (add_favorite_to_user sampleDb 1 sampleStructure.id) 1 ∧
      sampleStructure ∉
        get_favourites_by_user
          (delete_favorite (add_favorite_to_user sampleDb 1 sampleStructure.id) 1
            sampleStructure.id) 1 :=
  c3_favorites_round_trip sampleDb 1 sampleStructure
    ⟨sampleUser, by decide, by decide⟩ (by decide)

/-- C4: the GET-favorites handler resolves the module attribute
get_favorites_by_user, which src/app/service/user_service.py does not
define (it defines get_favourites_by_user), so for every store and user id
the handler raises AttributeError instead of returning the feature
collection. -/
theorem c4_get_favorites_raises (db : DBState) (uid : Nat) :
    FavoritesUserController_get db uid =
      .pyError "AttributeError: module app.service.user_service has no attribute get_favorites_by_user" ∧
      (FavoritesUserController_get db uid).status = 500 :=
  ⟨rfl, rfl⟩

/-- C5: updating an existing user keeps its id, created_on and structures;
when the payload carries no password the stored hash is kept; and the
structures table and the favorites relation are untouched. -/
theorem c5_update_preserves (identity uid : Nat) (pl : UserPayload)
    (db : DBState) (u : User) (h : get_user db uid = some u) :
    ∃ w : User,
      get_user (UserController_put identity uid pl db).2 uid = some w ∧
        w.id = u.id ∧ w.created_on = u.created_on ∧
        w.structures = u.structures ∧
        (pl.password = none → w.password_hash = u.password_hash) ∧
        (UserController_put identity uid pl db).2.structures = db.structures ∧
        (UserController_put identity uid pl db).2.favorites = db.favorites := by
  have h' : db.users.find? (fun v => v.id == uid) = some u := h
  have hmem : u ∈ db.users := List.mem_of_find?_eq_some h'
  have hpred : (u.id == uid) = true := by simpa using List.find?_some h'
  have hid : u.id = uid := by simpa using hpred
  have hany : db.users.any (fun v => v.id == uid) = true :=
    List.any_eq_true.mpr ⟨u, hmem, hpred⟩
  rw [UserController_put, h]
  refine ⟨{ id := uid, username := pl.username,
            password_hash :=
              match pl.password with
              | some p => hashPassword p
              | none => u.password_hash,
            created_on := u.created_on, structures := u.structures }, ?_, ?_, rfl, rfl, ?_, ?_, ?_⟩
  · show get_user (update_user db _) uid = _
    rw [update_user]
    simp only [hany, if_true]
    exact find?_map_replace db.users uid _ rfl hany
  · exact hid.symm
  · intro hnone
    simp [hnone]
  · exact (update_user_frame db _).1
  · exact (update_user_frame db _).2.1

/-- Closed instance of c5_update_preserves: user 1 of the sample store
updated without a password by caller 2. -/
theorem c5_update_preserves_witness :
    ∃ w : User,
      get_user (UserController_put 2 1 ⟨"alicia", none⟩ sampleDb).2 1 = some w ∧
        w.id = sampleUser.id ∧ w.created_on = sampleUser.created_on ∧
        w.structures = sampleUser.structures ∧
        ((⟨"alicia", none⟩ : UserPayload).password = none →
          w.password_hash = sampleUser.password_hash) ∧
        (UserController_put 2 1 ⟨"alicia", none⟩ sampleDb).2.structures =
          sampleDb.structures ∧
        (UserController_put 2 1 ⟨"alicia", none⟩ sampleDb).2.favorites =
          sampleDb.favorites :=
  c5_update_preserves 2 1 ⟨"alicia", none⟩ sampleDb sampleUser (by decide)

/-- C6: get_user of a missing id is the non-error absent value, but the GET
handler marshals that absence to a 200 success with null fields — the 404
promised by the route's response declaration is never produced. -/
theorem c6_missing_user_success :
    get_user emptyDb 999 = none ∧
      UserController_get emptyDb 999 = .ok none 200 ∧
      (UserController_get emptyDb 999).status = 200 :=
  ⟨rfl, rfl, rfl⟩

/-- C7: delete_user is idempotent — deleting a missing id is a no-op,
deleting twice equals deleting once, and after a delete no stored user
carries the deleted id. -/
theorem c7_delete_user_idempotent (db : DBState) (uid : Nat) :
    (get_user db uid = none → delete_user db uid = db) ∧
      delete_user (delete_user db uid) uid = delete_user db uid ∧
      (∀ v ∈ (delete_user db uid).users, ¬ v.id = uid) := by
  refine ⟨fun hnone => by rw [delete_user, hnone], ?_, ?_⟩
  · cases h : get_user db uid with
    | none =>
      have h0 : delete_user db uid = db := by rw [delete_user, h]
      rw [h0]
      exact h0
    | some u =>
      have h' : db.users.find? (fun v => v.id == uid) = some u := h
      have hid : u.id = uid := by simpa using List.find?_some h'
      have hgone :
          get_user (delete_user db uid) uid = none := by
        rw [delete_user, h]
        show (db.users.filter (fun v => !(v.id == u.id))).find?
          (fun v => v.id == uid) = none
        rw [hid]
        exact find?_filter_not db.users (fun v => v.id == uid)
      conv_lhs => rw [delete_user]
      rw [hgone]
  · intro v hv hvid
    cases h : get_user db uid with
    | none =>
      have h' : db.users.find? (fun w => w.id == uid) = none := h
      rw [delete_user, h] at hv
      exact (List.find?_eq_none.mp h' v hv) (by simp [hvid])
    | some u =>
      have h' : db.users.find? (fun w => w.id == uid) = some u := h
      have hid : u.id = uid := by simpa using List.find?_some h'
      rw [delete_user, h] at hv
      have hkeep := (List.mem_filter.mp hv).2
      rw [hid] at hkeep
      simp [hvid] at hkeep

/-- Closed instance of c7_delete_user_idempotent: missing id 7 on the empty
store, double deletion of user 1, and survival of user 2 on the sample
store. -/
theorem c7_delete_user_idempotent_witness :
    delete_user emptyDb 7 = emptyDb ∧
      delete_user (delete_user sampleDb 1) 1 = delete_user sampleDb 1 ∧
      ¬ sampleUser2.id = 1 :=
  ⟨(c7_delete_user_idempotent emptyDb 7).1 (by decide),
   (c7_delete_user_idempotent sampleDb 1).2.1,
   (c7_delete_user_idempotent sampleDb 1).2.2 sampleUser2 (by decide)⟩

/-- C8: the add-favorite handler never reads the caller identity — any two
authenticated callers get the same response and the same new store — it
never answers 401, and its response is the affected structure re-serialized
after the mutation. -/
theorem c8_add_favorite_identity_blind (A B uid : Nat) (pl : FavPayload)
    (db : DBState) :
    FavoritesUserController_post A uid pl db =
        FavoritesUserController_post B uid pl db ∧
      (FavoritesUserController_post A uid pl db).1.status = 200 ∧
      (FavoritesUserController_post A uid pl db).1 =
        .ok ((get_structure (add_favorite_to_user db uid pl.structure_id)
              pl.structure_id).map structure_to_feature) 200 ∧
      (FavoritesUserController_post A uid pl db).2 =
        add_favorite_to_user db uid pl.structure_id :=
  ⟨rfl, rfl, rfl, rfl⟩

/-- C9: when the target id has no user, the PUT handler does not produce an
absent or not-found result — the None lookup is dereferenced and the
request dies on an AttributeError, leaving the store unchanged; non-error
behaviour therefore presumes the user exists. -/
theorem c9_put_requires_existing_user (identity uid : Nat) (pl : UserPayload)
    (db : DBState) (h : get_user db uid = none) :
    UserController_put identity uid pl db =
      (.pyError "AttributeError: NoneType object has no attribute password_hash", db) ∧
      (UserController_put identity uid pl db).1.status = 500 := by
  constructor
  · simp [UserController_put, h]
  · simp [UserController_put, h, HttpResult.status]

/-- Closed instance of c9_put_requires_existing_user at id 5 of the empty
store. -/
theorem c9_put_requires_existing_user_witness :
    UserController_put 1 5 ⟨"x", none⟩ emptyDb =
      (.pyError "AttributeError: NoneType object has no attribute password_hash", emptyDb) ∧
      (UserController_put 1 5 ⟨"x", none⟩ emptyDb).1.status = 500 :=
  c9_put_requires_existing_user 1 5 ⟨"x", none⟩ emptyDb (by decide)

/-- C10: the update handler is not self-scoped — the caller identity never
influences the response or the resulting store, so any two authenticated
callers can update any target user identically. -/
theorem c10_update_not_self_scoped (A B uid : Nat) (pl : UserPayload)
    (db : DBState) :
    UserController_put A uid pl db = UserController_put B uid pl db :=
  rfl
